import Mathlib

/-!
Shallow embedding of the TicTacToe rules engine and area dispatcher from
`src/ip1-handout/src/town/games/TicTacToeGameArea.ts` (which contains the
`TicTacToeGameArea` dispatcher and the `TicTacToeGame` engine).

Pieces not under `src/` (the abstract `Game`/`GameArea` base classes, the
`Player` entity and the error-message constants of
`lib/InvalidParametersError.ts`) are modelled from the spec, each with a
doc comment saying so.
-/

/-- A game piece, `'X' | 'O'`. -/
inductive Piece where
  | X
  | O
deriving DecidableEq, Repr

/-- Game lifecycle status, `'WAITING_TO_START' | 'IN_PROGRESS' | 'OVER'`. -/
inductive GameStatus where
  | WAITING_TO_START
  | IN_PROGRESS
  | OVER
deriving DecidableEq, Repr

/-- Modelled from the spec: the player-identity entity is an external
collaborator (opaque id + display name), not under `src/`. -/
structure Player where
  id : String
  userName : String
deriving DecidableEq, Repr

/-- `TicTacToeMove`: `{ row, col, gamePiece }`. -/
structure TicTacToeMove where
  row : Nat
  col : Nat
  gamePiece : Piece
deriving DecidableEq, Repr

/-- `GameMove<TicTacToeMove>`: `{ playerID, gameID, move }`.  Match
identifiers are modelled as natural numbers. -/
structure GameMove where
  playerID : String
  gameID : Nat
  move : TicTacToeMove
deriving DecidableEq, Repr

/-- `TicTacToeGameState`: `{ moves, status, x?, o?, winner? }`. -/
structure TicTacToeGameState where
  moves : List TicTacToeMove
  status : GameStatus
  x : Option String := none
  o : Option String := none
  winner : Option String := none
deriving DecidableEq, Repr

/-- One `TicTacToeGame` instance.  The `id` and `_players` fields are
modelled from the spec: they live on the abstract `Game` base class, which
is not under `src/` (the spec: a match identifier per instance, and the
match's occupants). -/
structure TicTacToeGame where
  id : Nat
  players : List Player
  state : TicTacToeGameState
deriving DecidableEq, Repr

/-- The names of the error-message constants exported by
`lib/InvalidParametersError.ts`. -/
inductive ErrName where
  | INVALID_COMMAND_MESSAGE
  | GAME_NOT_IN_PROGRESS_MESSAGE
  | PLAYER_ALREADY_IN_GAME_MESSAGE
  | GAME_FULL_MESSAGE
  | PLAYER_NOT_IN_GAME_MESSAGE
  | MOVE_NOT_YOUR_TURN_MESSAGE
  | BOARD_POSITION_NOT_EMPTY_MESSAGE
deriving DecidableEq, Repr

/-- Modelled from the spec: `lib/InvalidParametersError.ts` is not under
`src/`, so the values of its message constants are unknown.  The spec fixes
only that each error kind has its own fixed, stable message string.  A
message is therefore either the value of one of the named constants
(`ErrorMessage.const`), or a raw string literal appearing in the source
(`ErrorMessage.lit`); distinct constants denote distinct strings, and no
constant's value is a string literal spelled in the engine's source. -/
inductive ErrorMessage where
  | const : ErrName → ErrorMessage
  | lit : String → ErrorMessage
deriving DecidableEq, Repr

/-- `TicTacToeGame._isPositionOccupied(row, col)`:
`moves.some(move => move.row === row && move.col === col)`. -/
def TicTacToeGame.isPositionOccupied (moves : List TicTacToeMove) (row col : Nat) : Bool :=
  moves.any fun move => move.row == row && move.col == col

/-- `TicTacToeGame._checkForWin(row, col, currentPlayerPiece)`: counts, for
each of the row through `row`, the column through `col`, and (when on them)
the two diagonals, how many of the three cells are occupied by
`currentPlayerPiece` in `moves`, and reports a win when a count reaches 3. -/
def TicTacToeGame.checkForWin (moves : List TicTacToeMove)
    (row col : Nat) (currentPlayerPiece : Piece) : Bool :=
  let rowCount := (List.range 3).countP fun i =>
    moves.any fun move =>
      move.row == row && move.col == i && move.gamePiece == currentPlayerPiece
  if rowCount == 3 then true
  else
    let colCount := (List.range 3).countP fun i =>
      moves.any fun move =>
        move.row == i && move.col == col && move.gamePiece == currentPlayerPiece
    if colCount == 3 then true
    else
      let diagCount := (List.range 3).countP fun i =>
        moves.any fun move =>
          move.row == i && move.col == i && move.gamePiece == currentPlayerPiece
      if row == col && diagCount == 3 then true
      else
        let reverseDiagCount := (List.range 3).countP fun i =>
          moves.any fun move =>
            move.row == i && move.col == 2 - i && move.gamePiece == currentPlayerPiece
        if row + col == 2 && reverseDiagCount == 3 then true
        else false

/-- The piece derivation at the top of `applyMove`:
`currentPlayerID === x ? 'X' : 'O'`. -/
def TicTacToeGame.derivedPiece (x : Option String) (currentPlayerID : String) : Piece :=
  if x = some currentPlayerID then .X else .O

/-- `TicTacToeGame.applyMove(move)`.  Faithful to the source: the freshly
built `newMovesArray` (a copy of `moves` with `move.move` pushed) is never
written back into the state, and the tie test compares the length of the
original `moves` to 9. -/
def TicTacToeGame.applyMove (g : TicTacToeGame) (move : GameMove) :
    Except ErrorMessage TicTacToeGame :=
  let moves := g.state.moves
  let status := g.state.status
  let x := g.state.x
  let currentPlayerID := move.playerID
  let currentPlayerPiece := TicTacToeGame.derivedPiece x currentPlayerID
  if status ≠ .IN_PROGRESS then
    .error (.lit "GAME_NOT_IN_PROGRESS_MESSAGE")
  else if (currentPlayerPiece == .X && moves.length % 2 != 0)
      || (currentPlayerPiece == .O && moves.length % 2 == 0) then
    .error (.lit "MOVE_NOT_YOUR_TURN_MESSAGE")
  else
    let row := move.move.row
    let col := move.move.col
    if TicTacToeGame.isPositionOccupied moves row col then
      .error (.lit "BOARD_POSITION_NOT_EMPTY_MESSAGE")
    else
      let _newMovesArray := moves ++ [move.move]
      if TicTacToeGame.checkForWin moves row col currentPlayerPiece then
        .ok { g with state := { g.state with status := .OVER, winner := some currentPlayerID } }
      else if moves.length == 9 then
        .ok { g with state := { g.state with status := .OVER, winner := none } }
      else
        .ok g

/-- `TicTacToeGame._join(player)` followed by the base class's push of the
player onto `_players` (the push is modelled from the spec: the base `Game`
class, not under `src/`, adds the joiner to the match's occupants after the
engine-specific checks succeed). -/
def TicTacToeGame.join (g : TicTacToeGame) (player : Player) :
    Except ErrorMessage TicTacToeGame :=
  if g.players.any fun p => p.id == player.id then
    .error (.const .PLAYER_ALREADY_IN_GAME_MESSAGE)
  else if 2 ≤ g.players.length then
    .error (.const .GAME_FULL_MESSAGE)
  else
    let st :=
      if g.players.length == 0 then
        { g.state with x := some player.id }
      else if g.players.length == 1 then
        { g.state with o := some player.id, status := .IN_PROGRESS }
      else g.state
    .ok { g with state := st, players := g.players ++ [player] }

/-- `TicTacToeGame._leave(player)`: removes the player from `_players`
itself (a further filter in the base class is a no-op), then branches on
the remaining occupant count. -/
def TicTacToeGame.leave (g : TicTacToeGame) (player : Player) :
    Except ErrorMessage TicTacToeGame :=
  if !(g.players.any fun p => p.id == player.id) then
    .error (.const .PLAYER_NOT_IN_GAME_MESSAGE)
  else
    let players' := g.players.filter fun p => p.id != player.id
    if players'.length == 1 then
      let st := { g.state with status := GameStatus.OVER, winner := players'.head?.map Player.id }
      .ok { g with players := players', state := st }
    else if players'.length == 0 then
      let st := { g.state with status := GameStatus.WAITING_TO_START }
      .ok { g with players := players', state := st }
    else
      .ok { g with players := players' }

/-- A fresh `new TicTacToeGame()` with the given identifier: empty move
list, `WAITING_TO_START` (the identifier itself is modelled from the spec:
ids come from the base `Game` class, not under `src/`; each new instance
gets a new one). -/
def TicTacToeGame.newGame (id : Nat) : TicTacToeGame :=
  { id := id, players := [], state := { moves := [], status := .WAITING_TO_START } }

/-- `MatchHistoryRecord` / `GameResult`: `{ gameID, scores }`; the scores
object built by the dispatcher has the single entry `[player.userName]: 0`. -/
structure GameResult where
  gameID : Nat
  scores : List (String × Nat)
deriving DecidableEq, Repr

/-- `TicTacToeGameArea` dispatcher state (modelled from the spec for the
parts on the `GameArea` base class, not under `src/`): the optional owned
`_game`, the `_history` log, and a counter supplying fresh match ids. -/
structure AreaState where
  game : Option TicTacToeGame
  history : List GameResult
  nextId : Nat
deriving DecidableEq, Repr

/-- The `InteractableCommand` variants the dispatcher distinguishes:
`JoinGame`, `GameMove`, `LeaveGame`, and any other variant. -/
inductive Command where
  | JoinGame
  | GameMove (gameID : Nat) (move : TicTacToeMove)
  | LeaveGame (gameID : Nat)
  | Other
deriving DecidableEq, Repr

/-- A successful `handleCommand` return value: `{ gameID }` for `JoinGame`,
`{}` for `GameMove` and `LeaveGame`. -/
inductive Response where
  | gameID (id : Nat)
  | empty
deriving DecidableEq, Repr

deriving instance DecidableEq for Except

/-- The outcome of one `handleCommand` call: the returned value or the
propagated error, the dispatcher state afterwards, and how many times
`_emitAreaChanged` was called. -/
structure HandleOutcome where
  res : Except ErrorMessage Response
  area : AreaState
  emits : Nat
deriving DecidableEq, Repr

/-- `TicTacToeGameArea.handleCommand(command, player)`.  Faithful to the
source: the `JoinGame` branch replaces `_game` before joining (and keeps
the replacement even when the join throws); the `GameMove` branch never
compares the command's `gameID` with the active game's id, and builds the
delegated move with `gameID: this._game.id`; on a move or leave that ends
the game a `{ gameID, scores: [player.userName]: 0 }` record is pushed and
`_game` cleared; `_emitAreaChanged` runs once per successful `GameMove` or
`LeaveGame`, and after a successful `JoinGame` only when the status is then
`IN_PROGRESS`; caught engine errors are re-raised with the same message. -/
def handleCommand (a : AreaState) (command : Command) (player : Player) : HandleOutcome :=
  match command with
  | .JoinGame =>
    let fresh : Bool := match a.game with
      | none => true
      | some g => g.state.status == .OVER
    let g0 : TicTacToeGame := match a.game with
      | none => TicTacToeGame.newGame a.nextId
      | some g => if g.state.status == .OVER then TicTacToeGame.newGame a.nextId else g
    let nextId' := if fresh then a.nextId + 1 else a.nextId
    match g0.join player with
    | .error e =>
      { res := .error e, area := { a with game := some g0, nextId := nextId' }, emits := 0 }
    | .ok g1 =>
      { res := .ok (.gameID g1.id),
        area := { a with game := some g1, nextId := nextId' },
        emits := if g1.state.status == .IN_PROGRESS then 1 else 0 }
  | .GameMove _gid mv =>
    match a.game with
    | none => { res := .error (.const .GAME_NOT_IN_PROGRESS_MESSAGE), area := a, emits := 0 }
    | some g =>
      if g.state.status ≠ .IN_PROGRESS then
        { res := .error (.const .GAME_NOT_IN_PROGRESS_MESSAGE), area := a, emits := 0 }
      else
        let gameMove : GameMove := { playerID := player.id, gameID := g.id, move := mv }
        match g.applyMove gameMove with
        | .error e => { res := .error e, area := a, emits := 0 }
        | .ok g' =>
          if g'.state.status == .OVER then
            let record : GameResult := { gameID := g'.id, scores := [(player.userName, 0)] }
            { res := .ok .empty,
              area := { a with game := none, history := a.history ++ [record] },
              emits := 1 }
          else
            { res := .ok .empty, area := { a with game := some g' }, emits := 1 }
  | .LeaveGame _gid =>
    match a.game with
    | none => { res := .error (.const .GAME_NOT_IN_PROGRESS_MESSAGE), area := a, emits := 0 }
    | some g =>
      if g.state.status ≠ .IN_PROGRESS then
        { res := .error (.const .GAME_NOT_IN_PROGRESS_MESSAGE), area := a, emits := 0 }
      else
        match g.leave player with
        | .error e => { res := .error e, area := a, emits := 0 }
        | .ok g' =>
          if g'.state.status == .OVER then
            let record : GameResult := { gameID := g'.id, scores := [(player.userName, 0)] }
            { res := .ok .empty,
              area := { a with game := none, history := a.history ++ [record] },
              emits := 1 }
          else
            { res := .ok .empty, area := { a with game := some g' }, emits := 1 }
  | .Other =>
    { res := .error (.const .INVALID_COMMAND_MESSAGE), area := a, emits := 0 }

/-- Folding `applyMove` over a list of moves, stopping at the first
rejection: a sequence of `applyMove` calls on one game instance. -/
def TicTacToeGame.runMoves (g : TicTacToeGame) (ms : List GameMove) :
    Except ErrorMessage TicTacToeGame :=
  ms.foldlM TicTacToeGame.applyMove g

/-- The engine operation the dispatcher delegates to for a given command
(`none` when the command delegates to no engine operation): `applyMove` on
the move record `{ playerID: player.id, gameID: this._game.id, move }` for
`GameMove`, `leave(player)` for `LeaveGame`. -/
def engineStep (g : TicTacToeGame) (command : Command) (p : Player) :
    Option (Except ErrorMessage TicTacToeGame) :=
  match command with
  | .GameMove _ m => some (g.applyMove { playerID := p.id, gameID := g.id, move := m })
  | .LeaveGame _ => some (g.leave p)
  | _ => none

/-- A first concrete test player. -/
def alice : Player := { id := "p1", userName := "Alice" }

/-- A second concrete test player. -/
def bob : Player := { id := "p2", userName := "Bob" }

/-- The game state reached from a fresh instance after `alice` and then
`bob` join: both seats taken, `IN_PROGRESS`, empty move list. -/
def twoPlayerGame : TicTacToeGame :=
  { id := 0, players := [alice, bob],
    state := { moves := [], status := .IN_PROGRESS, x := some "p1", o := some "p2" } }

/-- `twoPlayerGame` really is the result of the two joins. -/
theorem twoPlayerGame_from_joins :
    ((TicTacToeGame.newGame 0).join alice >>= fun g => g.join bob) = .ok twoPlayerGame := rfl

/-- The column-0 winning sequence of E2E scenario A:
X:(0,0), O:(0,1), X:(1,0), O:(1,1), X:(2,0). -/
def columnWinMoves : List GameMove :=
  [ { playerID := "p1", gameID := 0, move := { row := 0, col := 0, gamePiece := .X } },
    { playerID := "p2", gameID := 0, move := { row := 0, col := 1, gamePiece := .O } },
    { playerID := "p1", gameID := 0, move := { row := 1, col := 0, gamePiece := .X } },
    { playerID := "p2", gameID := 0, move := { row := 1, col := 1, gamePiece := .O } },
    { playerID := "p1", gameID := 0, move := { row := 2, col := 0, gamePiece := .X } } ]

/-- A full 9-move sequence filling the board with no three-in-a-row for
either piece (final board: row 0 `X O X`, row 1 `X O O`, row 2 `O X X`). -/
def tieMoves : List GameMove :=
  [ { playerID := "p1", gameID := 0, move := { row := 0, col := 0, gamePiece := .X } },
    { playerID := "p2", gameID := 0, move := { row := 0, col := 1, gamePiece := .O } },
    { playerID := "p1", gameID := 0, move := { row := 0, col := 2, gamePiece := .X } },
    { playerID := "p2", gameID := 0, move := { row := 1, col := 1, gamePiece := .O } },
    { playerID := "p1", gameID := 0, move := { row := 1, col := 0, gamePiece := .X } },
    { playerID := "p2", gameID := 0, move := { row := 1, col := 2, gamePiece := .O } },
    { playerID := "p1", gameID := 0, move := { row := 2, col := 1, gamePiece := .X } },
    { playerID := "p2", gameID := 0, move := { row := 2, col := 0, gamePiece := .O } },
    { playerID := "p1", gameID := 0, move := { row := 2, col := 2, gamePiece := .X } } ]

/-- C1: a successful `applyMove` is claimed to append the move to the move
log.  In the code the freshly built `newMovesArray` is never written back:
from the two-join state, X's move at (0,0) returns successfully yet leaves
the state — in particular the move log, still of length 0 — completely
unchanged. -/
theorem C1_applyMove_never_appends :
    twoPlayerGame.applyMove
        { playerID := "p1", gameID := 0, move := { row := 0, col := 0, gamePiece := .X } }
      = .ok twoPlayerGame ∧
    twoPlayerGame.state.moves.length = 0 :=
  ⟨rfl, rfl⟩

/-- C2: the E2E scenario A sequence is claimed to end with `OVER` and
winner `alice`.  Because no move is ever appended to the log, the log's
length stays 0 (even parity), so O's second move in the sequence is
rejected with the out-of-turn error and the sequence never completes. -/
theorem C2_column_win_scenario_rejected :
    twoPlayerGame.applyMove
        { playerID := "p1", gameID := 0, move := { row := 0, col := 0, gamePiece := .X } }
      = .ok twoPlayerGame ∧
    twoPlayerGame.applyMove
        { playerID := "p2", gameID := 0, move := { row := 0, col := 1, gamePiece := .O } }
      = .error (.lit "MOVE_NOT_YOUR_TURN_MESSAGE") ∧
    twoPlayerGame.runMoves columnWinMoves = .error (.lit "MOVE_NOT_YOUR_TURN_MESSAGE") :=
  ⟨rfl, rfl, rfl⟩

/-- C3: a full 9-move no-win sequence is claimed to end in an `OVER` tie
with no winner.  Because the move log never grows, O's first move of the
sequence is already rejected as out of turn, so the ninth move is never
reached and the tie branch (which moreover compares the pre-push length to
9) never fires. -/
theorem C3_tie_scenario_rejected :
    twoPlayerGame.runMoves tieMoves = .error (.lit "MOVE_NOT_YOUR_TURN_MESSAGE") ∧
    (∀ g g' mv, TicTacToeGame.applyMove g mv = .ok g' →
      g'.state.moves = g.state.moves) :=
  ⟨rfl, by
    intro g g' mv h
    simp only [TicTacToeGame.applyMove] at h
    split at h
    · cases h
    · split at h
      · cases h
      · split at h
        · cases h
        · split at h
          · cases h; rfl
          · split at h
            · cases h; rfl
            · cases h; rfl⟩

/-- C6: the engine's `applyMove` is claimed to raise the same fixed message
per error kind as the dispatcher's own checks.  In the code `applyMove`
throws the quoted names of the message constants as string literals
(contradicting its own doc comment, which prescribes the imported
constants), so its `GameNotInProgress` message differs from the one the
dispatcher raises from the imported constant. -/
theorem C6_engine_message_literals :
    (TicTacToeGame.newGame 0).applyMove
        { playerID := "p1", gameID := 0, move := { row := 0, col := 0, gamePiece := .X } }
      = .error (.lit "GAME_NOT_IN_PROGRESS_MESSAGE") ∧
    (handleCommand { game := none, history := [], nextId := 0 }
        (.GameMove 0 { row := 0, col := 0, gamePiece := .X }) alice).res
      = .error (.const .GAME_NOT_IN_PROGRESS_MESSAGE) ∧
    ErrorMessage.lit "GAME_NOT_IN_PROGRESS_MESSAGE" ≠ .const .GAME_NOT_IN_PROGRESS_MESSAGE :=
  ⟨rfl, rfl, fun h => ErrorMessage.noConfusion h⟩

/-- Every error `applyMove` raises carries a raw string literal as its
message (the quoted constant names), never the value of one of the imported
message constants. -/
theorem TicTacToeGame.applyMove_error_lit (g : TicTacToeGame) (mv : GameMove)
    (e : ErrorMessage) (h : g.applyMove mv = .error e) : ∃ s, e = .lit s := by
  simp only [TicTacToeGame.applyMove] at h
  split at h
  · injection h with h2
    exact ⟨_, h2.symm⟩
  · split at h
    · injection h with h2
      exact ⟨_, h2.symm⟩
    · split at h
      · injection h with h2
        exact ⟨_, h2.symm⟩
      · split at h
        · exact Except.noConfusion h
        · split at h
          · exact Except.noConfusion h
          · exact Except.noConfusion h

/-- A dispatcher whose active match is `twoPlayerGame` (both players
seated, `IN_PROGRESS`, id `0`). -/
def areaInProgress : AreaState := { game := some twoPlayerGame, history := [], nextId := 1 }

/-- C4 counterexample: the active match has id `0`, the command carries the
mismatched id `999`, an active `IN_PROGRESS` match exists — yet the command
succeeds instead of failing with the `GameNotInProgress` message. -/
theorem C4_counterexample :
    twoPlayerGame.id ≠ 999 ∧
    (handleCommand areaInProgress
        (.GameMove 999 { row := 0, col := 0, gamePiece := .X }) alice).res = .ok .empty :=
  ⟨by decide, rfl⟩

/-- C4 (amended): the dispatcher never compares the command's match
identifier with the active match's id — the outcome of `SubmitMove` is the
same for any two identifiers, and it fails with the `GameNotInProgress`
message exactly when there is no active match or the active match's status
is not `IN_PROGRESS`. -/
theorem C4_submitMove_ignores_gameID (a : AreaState) (gid gid' : Nat)
    (m : TicTacToeMove) (p : Player) :
    handleCommand a (.GameMove gid m) p = handleCommand a (.GameMove gid' m) p ∧
    ((handleCommand a (.GameMove gid m) p).res
        = .error (.const .GAME_NOT_IN_PROGRESS_MESSAGE) ↔
      (match a.game with
       | none => True
       | some g => g.state.status ≠ .IN_PROGRESS)) := by
  refine ⟨rfl, ?_⟩
  simp only [handleCommand]
  cases ha : a.game with
  | none => simp
  | some g =>
    dsimp only
    by_cases hst : g.state.status = GameStatus.IN_PROGRESS
    · rw [if_neg (by simp [hst])]
      cases hm : g.applyMove { playerID := p.id, gameID := g.id, move := m } with
      | error e =>
        obtain ⟨s, rfl⟩ := TicTacToeGame.applyMove_error_lit g _ e hm
        simp [hst]
      | ok g' =>
        dsimp only
        split <;> simp [hst]
    · rw [if_pos hst]
      simp [hst]

/-- The state reached by `join alice; join bob; leave alice; leave bob`:
no occupants, `WAITING_TO_START` — and a stale `winner` still set to
`bob`'s id from the intervening forfeit. -/
def ghostWinnerState : TicTacToeGameState :=
  { moves := [], status := .WAITING_TO_START, x := some "p1", o := some "p2",
    winner := some "p2" }

/-- The game holding `ghostWinnerState`. -/
def ghostWinnerGame : TicTacToeGame := { id := 0, players := [], state := ghostWinnerState }

/-- C5 counterexample: after `alice` and `bob` join, `alice` leaves (the
forfeit sets `winner := bob`) and then `bob` leaves.  The final `leave`
succeeds with zero occupants remaining and sets `WAITING_TO_START`, but the
`winner` field is not cleared: it still holds `bob`'s id. -/
theorem C5_counterexample :
    ((TicTacToeGame.newGame 0).join alice >>= fun g => g.join bob >>= fun g2 =>
        g2.leave alice >>= fun g3 => g3.leave bob) = .ok ghostWinnerGame ∧
    ghostWinnerGame.players.length = 0 ∧
    ghostWinnerGame.state.status = .WAITING_TO_START ∧
    ghostWinnerGame.state.winner = some "p2" :=
  ⟨rfl, rfl, rfl, rfl⟩

/-- C5 (amended): when `leave` succeeds and zero occupants remain, the
status becomes `WAITING_TO_START` and the `winner` field is left exactly as
it was before the leave (it is not cleared). -/
theorem C5_leave_to_empty_keeps_winner (g g' : TicTacToeGame) (p : Player)
    (h : g.leave p = .ok g') (h0 : g'.players.length = 0) :
    g'.state.status = .WAITING_TO_START ∧ g'.state.winner = g.state.winner := by
  simp only [TicTacToeGame.leave] at h
  split at h
  · exact Except.noConfusion h
  · split at h
    · rename_i hcond
      injection h with h2
      subst h2
      simp only [List.length_eq_zero] at h0
      rw [h0] at hcond
      simp at hcond
    · split at h
      · injection h with h2
        subst h2
        exact ⟨rfl, rfl⟩
      · rename_i hc1 hc0
        injection h with h2
        subst h2
        exact (hc0 (by simp only [beq_iff_eq]; exact h0)).elim

/-- A match with `alice` as its sole joiner, waiting to start. -/
def oneJoiner : TicTacToeGame :=
  { id := 7, players := [alice],
    state := { moves := [], status := .WAITING_TO_START, x := some "p1" } }

/-- `oneJoiner` after its sole occupant leaves. -/
def oneJoinerLeft : TicTacToeGame :=
  { id := 7, players := [],
    state := { moves := [], status := .WAITING_TO_START, x := some "p1" } }

/-- C5 witness: the amended statement applied to the concrete one-occupant
match `oneJoiner`. -/
theorem C5_witness :
    oneJoinerLeft.state.status = .WAITING_TO_START ∧
    oneJoinerLeft.state.winner = oneJoiner.state.winner :=
  C5_leave_to_empty_keeps_winner oneJoiner oneJoinerLeft alice rfl rfl

/-- The game state after one player joins a fresh instance. -/
def afterFirstJoin (n : Nat) (q1 : Player) : TicTacToeGame :=
  { id := n, players := [q1],
    state := { moves := [], status := .WAITING_TO_START, x := some q1.id } }

/-- The game state after a second, distinct player joins. -/
def afterSecondJoin (n : Nat) (q1 q2 : Player) : TicTacToeGame :=
  { id := n, players := [q1, q2],
    state := { moves := [], status := .IN_PROGRESS, x := some q1.id, o := some q2.id } }

/-- C7: from a fresh instance, the first join seats the joiner as X and
leaves the status `WAITING_TO_START`; a second join by a distinct player
seats the joiner as O and moves the status to `IN_PROGRESS`. -/
theorem C7_join_ordering (n : Nat) (q1 q2 : Player) (h : q1.id ≠ q2.id) :
    ∃ g1 g2,
      (TicTacToeGame.newGame n).join q1 = .ok g1 ∧
      g1.state.x = some q1.id ∧ g1.state.status = .WAITING_TO_START ∧
      g1.join q2 = .ok g2 ∧
      g2.state.o = some q2.id ∧ g2.state.status = .IN_PROGRESS := by
  have hb : (q1.id == q2.id) = false := beq_eq_false_iff_ne.mpr h
  refine ⟨afterFirstJoin n q1, afterSecondJoin n q1 q2, rfl, rfl, rfl, ?_, rfl, rfl⟩
  simp [TicTacToeGame.join, afterFirstJoin, afterSecondJoin, hb]

/-- C7 witness: the join ordering at the concrete players `alice`, `bob`. -/
theorem C7_witness :
    ∃ g1 g2,
      (TicTacToeGame.newGame 0).join alice = .ok g1 ∧
      g1.state.x = some alice.id ∧ g1.state.status = .WAITING_TO_START ∧
      g1.join bob = .ok g2 ∧
      g2.state.o = some bob.id ∧ g2.state.status = .IN_PROGRESS :=
  C7_join_ordering 0 alice bob (by decide)

/-- Whether a dispatcher result is a success (no error was thrown). -/
def resOk : Except ErrorMessage Response → Bool
  | .ok _ => true
  | .error _ => false

/-- The dispatcher state with no active match and empty history. -/
def emptyArea : AreaState := { game := none, history := [], nextId := 0 }

/-- C9 counterexample: the first `JoinGame` on an empty area succeeds and
mutates the area (a fresh match now holds the joiner), yet
`_emitAreaChanged` is not called, because the join left the match in
`WAITING_TO_START`. -/
theorem C9_counterexample :
    (handleCommand emptyArea .JoinGame alice).res = .ok (.gameID 0) ∧
    (handleCommand emptyArea .JoinGame alice).area.game = some (afterFirstJoin 0 alice) ∧
    (handleCommand emptyArea .JoinGame alice).emits = 0 :=
  ⟨rfl, rfl, rfl⟩

/-- C9 (amended): `handleCommand` never emits on failure and emits exactly
once per successful `GameMove` or `LeaveGame`; a successful `JoinGame`
emits exactly when the joined match's status is then `IN_PROGRESS` — in
particular a first join, which leaves the match `WAITING_TO_START`, does
not emit. -/
theorem C9_emit_policy (a : AreaState) (command : Command) (p : Player) :
    (resOk (handleCommand a command p).res = false → (handleCommand a command p).emits = 0) ∧
    (∀ gid m, command = .GameMove gid m → resOk (handleCommand a command p).res = true →
      (handleCommand a command p).emits = 1) ∧
    (∀ gid, command = .LeaveGame gid → resOk (handleCommand a command p).res = true →
      (handleCommand a command p).emits = 1) ∧
    (command = .JoinGame → resOk (handleCommand a command p).res = true →
      ((handleCommand a command p).emits = 1 ↔
        ∃ g, (handleCommand a command p).area.game = some g ∧
          g.state.status = .IN_PROGRESS)) := by
  cases command with
  | JoinGame =>
    refine ⟨?_, ?_, ?_, ?_⟩
    · simp only [handleCommand]
      split
      · intro _; rfl
      · intro hfalse; simp [resOk] at hfalse
    · intro gid m h'; simp at h'
    · intro gid h'; simp at h'
    · intro _
      simp only [handleCommand]
      split
      · intro htrue; simp [resOk] at htrue
      · intro _
        split <;> simp_all
  | GameMove gid0 m0 =>
    refine ⟨?_, ?_, ?_, ?_⟩
    · simp only [handleCommand]
      split
      · intro _; rfl
      · split
        · intro _; rfl
        · split
          · intro _; rfl
          · split
            · intro hfalse; simp [resOk] at hfalse
            · intro hfalse; simp [resOk] at hfalse
    · intro gid m _
      simp only [handleCommand]
      split
      · intro htrue; simp [resOk] at htrue
      · split
        · intro htrue; simp [resOk] at htrue
        · split
          · intro htrue; simp [resOk] at htrue
          · split
            · intro _; rfl
            · intro _; rfl
    · intro gid h'; simp at h'
    · intro h'; simp at h'
  | LeaveGame gid0 =>
    refine ⟨?_, ?_, ?_, ?_⟩
    · simp only [handleCommand]
      split
      · intro _; rfl
      · split
        · intro _; rfl
        · split
          · intro _; rfl
          · split
            · intro hfalse; simp [resOk] at hfalse
            · intro hfalse; simp [resOk] at hfalse
    · intro gid m h'; simp at h'
    · intro gid _
      simp only [handleCommand]
      split
      · intro htrue; simp [resOk] at htrue
      · split
        · intro htrue; simp [resOk] at htrue
        · split
          · intro htrue; simp [resOk] at htrue
          · split
            · intro _; rfl
            · intro _; rfl
    · intro h'; simp at h'
  | Other =>
    refine ⟨?_, ?_, ?_, ?_⟩
    · intro _; rfl
    · intro gid m h'; simp at h'
    · intro gid h'; simp at h'
    · intro h'; simp at h'

/-- C9 witness: the amended statement's no-emit-on-failure clause at a
concrete failing command (a move with no active match). -/
theorem C9_witness :
    (handleCommand emptyArea (.GameMove 0 { row := 0, col := 0, gamePiece := .X }) alice).emits
      = 0 :=
  (C9_emit_policy emptyArea (.GameMove 0 { row := 0, col := 0, gamePiece := .X }) alice).1 rfl

/-- C10: `applyMove` derives the piece of any player whose id is neither
seat's id as O, and performs no membership check: in an `IN_PROGRESS` state
with an odd move-log length and an empty target cell, the non-occupant's
move is accepted. -/
theorem C10_nonoccupant_accepted (g : TicTacToeGame) (mv : GameMove)
    (hx : g.state.x ≠ some mv.playerID) (_ho : g.state.o ≠ some mv.playerID)
    (hst : g.state.status = .IN_PROGRESS)
    (hodd : g.state.moves.length % 2 = 1)
    (hocc : TicTacToeGame.isPositionOccupied g.state.moves mv.move.row mv.move.col = false) :
    TicTacToeGame.derivedPiece g.state.x mv.playerID = .O ∧
    ∃ g', g.applyMove mv = .ok g' := by
  have hpiece : TicTacToeGame.derivedPiece g.state.x mv.playerID = .O := by
    simp only [TicTacToeGame.derivedPiece]
    rw [if_neg hx]
  refine ⟨hpiece, ?_⟩
  simp only [TicTacToeGame.applyMove]
  rw [if_neg (by simp [hst])]
  rw [if_neg (by simp [hpiece, hodd])]
  rw [if_neg (by simp [hocc])]
  split
  · exact ⟨_, rfl⟩
  · split
    · exact ⟨_, rfl⟩
    · exact ⟨_, rfl⟩

/-- A mid-game state: one X move recorded at (0,0), both seats taken. -/
def midGame : TicTacToeGame :=
  { id := 3, players := [alice, bob],
    state := { moves := [{ row := 0, col := 0, gamePiece := .X }],
               status := .IN_PROGRESS, x := some "p1", o := some "p2" } }

/-- C10 witness: in `midGame` (odd move count), the complete outsider with
id `"intruder"` plays (1,1) and is accepted as O. -/
theorem C10_witness :
    TicTacToeGame.derivedPiece midGame.state.x "intruder" = .O ∧
    ∃ g', midGame.applyMove
        { playerID := "intruder", gameID := 3, move := { row := 1, col := 1, gamePiece := .O } }
      = .ok g' :=
  C10_nonoccupant_accepted midGame
    { playerID := "intruder", gameID := 3, move := { row := 1, col := 1, gamePiece := .O } }
    (by decide) (by decide) rfl rfl rfl

/-- A successful `applyMove` never changes the match identifier. -/
theorem TicTacToeGame.applyMove_ok_id (g g' : TicTacToeGame) (mv : GameMove)
    (h : g.applyMove mv = .ok g') : g'.id = g.id := by
  simp only [TicTacToeGame.applyMove] at h
  split at h
  · exact Except.noConfusion h
  · split at h
    · exact Except.noConfusion h
    · split at h
      · exact Except.noConfusion h
      · split at h
        · injection h with h2; subst h2; rfl
        · split at h
          · injection h with h2; subst h2; rfl
          · injection h with h2; subst h2; rfl

/-- A successful `leave` never changes the match identifier. -/
theorem TicTacToeGame.leave_ok_id (g g' : TicTacToeGame) (p : Player)
    (h : g.leave p = .ok g') : g'.id = g.id := by
  simp only [TicTacToeGame.leave] at h
  split at h
  · exact Except.noConfusion h
  · split at h
    · injection h with h2; subst h2; rfl
    · split at h
      · injection h with h2; subst h2; rfl
      · injection h with h2; subst h2; rfl

/-- C8: `handleCommand` appends a history record — carrying the active
match's identifier and the `[player.userName]: 0` score entry — and clears
the active match, exactly when a `GameMove` or `LeaveGame` command
delegates successfully (so it required an `IN_PROGRESS` active match) and
the engine operation leaves the match's status `OVER`; in every other case
the history log is left unchanged. -/
theorem C8_history_on_over (a : AreaState) (command : Command) (p : Player) :
    ((handleCommand a command p).area.history = a.history ∨
      ∃ g g', a.game = some g ∧ g.state.status = .IN_PROGRESS ∧
        engineStep g command p = some (.ok g') ∧ g'.state.status = .OVER ∧
        (handleCommand a command p).res = .ok .empty ∧
        (handleCommand a command p).area.history
          = a.history ++ [{ gameID := g.id, scores := [(p.userName, 0)] }] ∧
        (handleCommand a command p).area.game = none) ∧
    (∀ g g', a.game = some g → g.state.status = .IN_PROGRESS →
      engineStep g command p = some (.ok g') → g'.state.status = .OVER →
      (handleCommand a command p).res = .ok .empty ∧
      (handleCommand a command p).area.history
        = a.history ++ [{ gameID := g.id, scores := [(p.userName, 0)] }] ∧
      (handleCommand a command p).area.game = none) := by
  cases command with
  | JoinGame =>
    constructor
    · left
      simp only [handleCommand]
      split <;> rfl
    · intro g g' hg hst hstep hov
      simp [engineStep] at hstep
  | GameMove gid0 m0 =>
    constructor
    · simp only [handleCommand]
      cases ha : a.game with
      | none => left; rfl
      | some g =>
        dsimp only
        by_cases hst : g.state.status = GameStatus.IN_PROGRESS
        · rw [if_neg (by simp [hst])]
          cases hm : g.applyMove { playerID := p.id, gameID := g.id, move := m0 } with
          | error e => left; rfl
          | ok g' =>
            dsimp only
            by_cases hov : g'.state.status = GameStatus.OVER
            · rw [if_pos (by simp [hov])]
              right
              refine ⟨g, g', rfl, hst, by simp [engineStep, hm], hov, rfl, ?_, rfl⟩
              rw [TicTacToeGame.applyMove_ok_id g g' _ hm]
            · rw [if_neg (by simp [hov])]
              left; rfl
        · rw [if_pos hst]
          left; rfl
    · intro g g' hg hst hstep hov
      simp only [engineStep] at hstep
      injection hstep with hstep
      simp only [handleCommand, hg]
      rw [if_neg (by simp [hst])]
      simp only [hstep]
      rw [if_pos (by simp [hov])]
      refine ⟨rfl, ?_, rfl⟩
      rw [TicTacToeGame.applyMove_ok_id g g' _ hstep]
  | LeaveGame gid0 =>
    constructor
    · simp only [handleCommand]
      cases ha : a.game with
      | none => left; rfl
      | some g =>
        dsimp only
        by_cases hst : g.state.status = GameStatus.IN_PROGRESS
        · rw [if_neg (by simp [hst])]
          cases hm : g.leave p with
          | error e => left; rfl
          | ok g' =>
            dsimp only
            by_cases hov : g'.state.status = GameStatus.OVER
            · rw [if_pos (by simp [hov])]
              right
              refine ⟨g, g', rfl, hst, by simp [engineStep, hm], hov, rfl, ?_, rfl⟩
              rw [TicTacToeGame.leave_ok_id g g' _ hm]
            · rw [if_neg (by simp [hov])]
              left; rfl
        · rw [if_pos hst]
          left; rfl
    · intro g g' hg hst hstep hov
      simp only [engineStep] at hstep
      injection hstep with hstep
      simp only [handleCommand, hg]
      rw [if_neg (by simp [hst])]
      simp only [hstep]
      rw [if_pos (by simp [hov])]
      refine ⟨rfl, ?_, rfl⟩
      rw [TicTacToeGame.leave_ok_id g g' _ hstep]
  | Other =>
    constructor
    · left; rfl
    · intro g g' hg hst hstep hov
      simp [engineStep] at hstep

/-- `twoPlayerGame` after `alice` leaves: `bob` stays, forfeit win. -/
def forfeitState : TicTacToeGameState :=
  { moves := [], status := .OVER, x := some "p1", o := some "p2", winner := some "p2" }

/-- The game holding `forfeitState`. -/
def forfeitGame : TicTacToeGame := { id := 0, players := [bob], state := forfeitState }

/-- C8 witness: `alice` leaving the in-progress match forfeits it; the
dispatcher appends the one history record with the match's id and clears
the active match. -/
theorem C8_witness :
    (handleCommand areaInProgress (.LeaveGame 0) alice).res = .ok .empty ∧
    (handleCommand areaInProgress (.LeaveGame 0) alice).area.history
      = areaInProgress.history
        ++ [{ gameID := twoPlayerGame.id, scores := [(alice.userName, 0)] }] ∧
    (handleCommand areaInProgress (.LeaveGame 0) alice).area.game = none :=
  (C8_history_on_over areaInProgress (.LeaveGame 0) alice).2 twoPlayerGame forfeitGame
    rfl rfl rfl rfl
